import Mathlib

/-!
Shallow embedding of `src/dawn_native/vulkan/RayTracingAccelerationContainerVk.cpp`
(dawn-ray-tracing): the initialization pipeline of GPU ray-tracing acceleration
containers, together with theorems checking the specification's claims.

Modelling conventions:
* machine integers are `Nat`, with an explicit `% 2 ^ w` wherever the source
  narrows a wider integer (in particular `GetMemoryRequirementSize` returns a
  `uint32_t` built from a `VkDeviceSize`, i.e. `% 2 ^ 32`, and the bit fields of
  `VkAccelerationInstance` are 24- and 8-bit wide);
* the 32-bit `float` values flowing through the transform composer are modelled
  as `ℚ`; every claim proved about them only involves small integer values, on
  which IEEE float arithmetic is exact, and the C runtime's `sinf` / `cosf` are
  uninterpreted function parameters;
* driver entry points and the device memory allocator are an oracle (`Device`),
  and every driver call performed is recorded in an execution trace;
* `Buffer::GetHandle()` values are the buffers' native `VkBuffer` handles, with
  `0` standing for `VK_NULL_HANDLE`.
-/

namespace DawnRT

/-! ## Enumerations (`webgpu.h` values read by this translation unit) -/

/-- `wgpu::RayTracingAccelerationContainerLevel`.  `other` stands for any value
of the underlying C enum type that is neither `Bottom` nor `Top`. -/
inductive ContainerLevel where
  | bottom
  | top
  | other
deriving DecidableEq

/-- `wgpu::RayTracingAccelerationGeometryType`. -/
inductive GeometryType where
  | triangles
  | aabbs
deriving DecidableEq

/-- `wgpu::IndexFormat`. -/
inductive IndexFormat where
  | noIndex
  | uint16
  | uint32
deriving DecidableEq

/-- `wgpu::VertexFormat` (the two values accepted by this translation unit). -/
inductive VertexFormat where
  | float2
  | float3
deriving DecidableEq

/-! ## Vulkan enumerations and constants -/

inductive VkAccelerationStructureTypeNV where
  | bottomLevel
  | topLevel
deriving DecidableEq

inductive VkGeometryTypeNV where
  | trianglesNV
  | aabbsNV
deriving DecidableEq

inductive VkIndexType where
  | noneNV
  | uint16NV
  | uint32NV
deriving DecidableEq

inductive VkFormat where
  | r32g32Sfloat
  | r32g32b32Sfloat
deriving DecidableEq

def VK_GEOMETRY_OPAQUE_BIT_NV : Nat := 1

def VK_BUILD_ACCELERATION_STRUCTURE_ALLOW_UPDATE_BIT_NV : Nat := 1

def VK_BUILD_ACCELERATION_STRUCTURE_ALLOW_COMPACTION_BIT_NV : Nat := 2

def VK_BUILD_ACCELERATION_STRUCTURE_PREFER_FAST_TRACE_BIT_NV : Nat := 4

def VK_BUILD_ACCELERATION_STRUCTURE_PREFER_FAST_BUILD_BIT_NV : Nat := 8

def VK_BUILD_ACCELERATION_STRUCTURE_LOW_MEMORY_BIT_NV : Nat := 16

def VK_BUFFER_USAGE_TRANSFER_SRC_BIT : Nat := 1

def VK_BUFFER_USAGE_RAY_TRACING_BIT_NV : Nat := 1024

/-! ## Descriptors (inputs, `webgpu.h` / `dawn.json` shapes used by the source) -/

/-- `Transform3D`: three `float` components. -/
structure Transform3D where
  x : ℚ
  y : ℚ
  z : ℚ
deriving DecidableEq

/-- The `transform` member of an instance descriptor: optional translation,
rotation and scale (`nullptr` = `none`). -/
structure TransformDescriptor where
  translation : Option Transform3D
  rotation : Option Transform3D
  scale : Option Transform3D
deriving DecidableEq

/-- `wgpu::RayTracingAccelerationContainerFlag` bit set (the four caller
flags tested by `VulkanBuildAccelerationStructureFlags`). -/
structure ContainerFlags where
  allowUpdate : Bool
  preferFastBuild : Bool
  preferFastTrace : Bool
  lowMemory : Bool
deriving DecidableEq

/-- `RayTracingAccelerationGeometryDescriptor`.  `vertexBuffer` is the native
`VkBuffer` handle of the referenced buffer (`0` = unbacked); `indexBuffer` is
`none` when the descriptor's pointer is `nullptr`, otherwise the referenced
buffer's native handle. -/
structure GeometryDescriptor where
  type : GeometryType
  vertexBuffer : Nat
  vertexOffset : Nat
  vertexCount : Nat
  vertexStride : Nat
  vertexFormat : VertexFormat
  indexBuffer : Option Nat
  indexOffset : Nat
  indexCount : Nat
  indexFormat : IndexFormat
deriving DecidableEq

/-- `RayTracingAccelerationInstanceDescriptor`.  `geometryContainerHandle` is
the value `instance.geometryContainer->GetHandle()` of the referenced
bottom-level container (its opaque device handle, `0` while unset). -/
structure InstanceDescriptor where
  transform : TransformDescriptor
  instanceId : Nat
  mask : Nat
  instanceOffset : Nat
  flags : Nat
  geometryContainerHandle : Nat
deriving DecidableEq

/-- `RayTracingAccelerationContainerDescriptor`; `geometryCount` and
`instanceCount` are the list lengths. -/
structure ContainerDescriptor where
  level : ContainerLevel
  flags : ContainerFlags
  geometries : List GeometryDescriptor
  instances : List InstanceDescriptor
deriving DecidableEq

/-! ## Native records produced by the encoders -/

/-- The `triangles` member of `VkGeometryNV` (fields written by the source). -/
structure VkGeometryTrianglesNV where
  vertexData : Nat
  vertexOffset : Nat
  vertexCount : Nat
  vertexStride : Nat
  vertexFormat : VkFormat
  indexData : Nat
  indexOffset : Nat
  indexCount : Nat
  indexType : VkIndexType
deriving DecidableEq

/-- `VkGeometryNV` (fields written by the source; `aabbsData` is
`geometry.aabbs.aabbData`, always `VK_NULL_HANDLE`). -/
structure VkGeometryNV where
  flags : Nat
  geometryType : VkGeometryTypeNV
  triangles : VkGeometryTrianglesNV
  aabbsData : Nat
deriving DecidableEq

/-- A 4x4 intermediate matrix: the sixteen `float` slots of the `out` array of
`Fill4x3TransformMatrix`, `mi` standing for `out[i]`. -/
structure Mat16 where
  m0 : ℚ
  m1 : ℚ
  m2 : ℚ
  m3 : ℚ
  m4 : ℚ
  m5 : ℚ
  m6 : ℚ
  m7 : ℚ
  m8 : ℚ
  m9 : ℚ
  m10 : ℚ
  m11 : ℚ
  m12 : ℚ
  m13 : ℚ
  m14 : ℚ
  m15 : ℚ
deriving DecidableEq

/-- The all-zero array `float transform[16] = {}` the caller hands to
`Fill4x3TransformMatrix`. -/
def mat16Zero : Mat16 :=
  ⟨0, 0, 0, 0, 0, 0, 0, 0, 0, 0, 0, 0, 0, 0, 0, 0⟩

/-- The first twelve slots of the array: what `memcpy` copies into
`VkAccelerationInstance::transform` (a 4x3 row-major matrix, rows
`(m0,m1,m2,m3)`, `(m4,m5,m6,m7)`, `(m8,m9,m10,m11)`). -/
structure TransformMatrix4x3 where
  m0 : ℚ
  m1 : ℚ
  m2 : ℚ
  m3 : ℚ
  m4 : ℚ
  m5 : ℚ
  m6 : ℚ
  m7 : ℚ
  m8 : ℚ
  m9 : ℚ
  m10 : ℚ
  m11 : ℚ
deriving DecidableEq

def Mat16.to4x3 (m : Mat16) : TransformMatrix4x3 :=
  ⟨m.m0, m.m1, m.m2, m.m3, m.m4, m.m5, m.m6, m.m7, m.m8, m.m9, m.m10, m.m11⟩

/-- `VkAccelerationInstance` (NV instance record): 12 `float`s followed by the
24/8/24/8-bit packed fields and the 64-bit referenced structure handle. -/
structure VkAccelerationInstance where
  transform : TransformMatrix4x3
  instanceId : Nat
  mask : Nat
  instanceOffset : Nat
  flags : Nat
  accelerationStructureHandle : Nat
deriving DecidableEq

/-- `sizeof(VkAccelerationInstance)`: 48 bytes of transform + 4 + 4 + 8. -/
def sizeofVkAccelerationInstance : Nat := 64

/-- `VkAccelerationStructureInfoNV` (fields written by
`CreateAccelerationStructure`); `geometries` models `pGeometries`
(`[]` = `nullptr`). -/
structure VkAccelerationStructureInfoNV where
  type : VkAccelerationStructureTypeNV
  flags : Nat
  instanceCount : Nat
  geometryCount : Nat
  geometries : List VkGeometryNV
deriving DecidableEq

structure VkAccelerationStructureCreateInfoNV where
  compactedSize : Nat
  info : VkAccelerationStructureInfoNV
deriving DecidableEq

/-! ## Errors

Each constructor corresponds to one `DAWN_VALIDATION_ERROR` string or one
wrapped driver-call failure of the source file. -/

inductive ContainerError where
  /-- "Invalid Call to CreateAccelerationStructureNV" (ray-tracing entry points
  unavailable). -/
  | unsupportedFeature
  /-- "Other Geometry types than 'Triangles' is unsupported" -/
  | unsupportedGeometryType
  /-- "Invalid vertex data" -/
  | invalidVertexData
  /-- "Invalid index data" -/
  | invalidIndexData
  /-- "Invalid Acceleration Container Handle" -/
  | invalidAccelerationHandle
  /-- "Invalid Acceleration Container Level" -/
  | invalidLevel
  /-- "Failed to allocate Scratch Memory" -/
  | memoryBindFailed
  /-- a failure propagated out of `device->AllocateMemory` -/
  | allocationFailed
  /-- `vkCreateBuffer` failure -/
  | vkCreateBufferFailed
  /-- `vkBindBufferMemory` failure -/
  | vkBindBufferMemoryFailed
  /-- `CreateBufferFromResourceMemoryAllocation` failure -/
  | bufferFromAllocationFailed
  /-- `vkCreateAccelerationStructureNV` failure -/
  | vkCreateAccelerationStructureFailed
  /-- `vkBindAccelerationStructureMemoryNV` failure -/
  | vkBindAccelerationStructureMemoryFailed
  /-- `vkGetAccelerationStructureHandleNV` failure -/
  | vkGetAccelerationStructureHandleFailed
deriving DecidableEq

/-! ## The type-to-native mapping helpers (anonymous namespace) -/

/-- `VulkanGeometryType` (total over the two `wgpu` values; the `default:`
branch is `UNREACHABLE()` and concerns no representable value). -/
def VulkanGeometryType : GeometryType → VkGeometryTypeNV
  | .triangles => .trianglesNV
  | .aabbs => .aabbsNV

/-- `VulkanIndexFormat`. -/
def VulkanIndexFormat : IndexFormat → VkIndexType
  | .noIndex => .noneNV
  | .uint16 => .uint16NV
  | .uint32 => .uint32NV

/-- `VulkanVertexFormat`. -/
def VulkanVertexFormat : VertexFormat → VkFormat
  | .float2 => .r32g32Sfloat
  | .float3 => .r32g32b32Sfloat

/-- `VulkanAccelerationContainerLevel`: `none` marks the `default:` branch,
which is `UNREACHABLE()`. -/
def VulkanAccelerationContainerLevel : ContainerLevel → Option VkAccelerationStructureTypeNV
  | .bottom => some .bottomLevel
  | .top => some .topLevel
  | .other => none

/-- `VulkanBuildAccelerationStructureFlags`: ORs one Vulkan build-flag bit per
requested caller flag. -/
def VulkanBuildAccelerationStructureFlags (f : ContainerFlags) : Nat :=
  ((((if f.allowUpdate then VK_BUILD_ACCELERATION_STRUCTURE_ALLOW_UPDATE_BIT_NV else 0) |||
     (if f.preferFastBuild then VK_BUILD_ACCELERATION_STRUCTURE_PREFER_FAST_BUILD_BIT_NV else 0)) |||
     (if f.preferFastTrace then VK_BUILD_ACCELERATION_STRUCTURE_PREFER_FAST_TRACE_BIT_NV else 0)) |||
     (if f.lowMemory then VK_BUILD_ACCELERATION_STRUCTURE_LOW_MEMORY_BIT_NV else 0))

/-- Reads the four caller flags back out of the captured Vulkan bit set (used
to state that the captured set reflects exactly the requested flags). -/
def decodeBuildFlags (n : Nat) : ContainerFlags :=
  { allowUpdate := n.testBit 0
    preferFastBuild := n.testBit 3
    preferFastTrace := n.testBit 2
    lowMemory := n.testBit 4 }

/-! ## `Fill4x3TransformMatrix` (transform composer) -/

/-- `Fill4x3TransformMatrix`: composes the optional translation, rotation
(X then Y then Z) and scale into the sixteen slots of `out`, then folds the
translation column into slots 3/7/11 and clears the last four slots.  `sinf`
and `cosf` are the C runtime trig functions, uninterpreted. -/
def Fill4x3TransformMatrix (translation rotation scale : Option Transform3D)
    (sinf cosf : ℚ → ℚ) : Mat16 :=
  -- make identity (the remaining slots stay at the caller's zero-initialization)
  let out := { mat16Zero with m0 := 1, m5 := 1, m10 := 1, m15 := 1 }
  -- apply translation
  let out :=
    match translation with
    | none => out
    | some t =>
      { out with
        m12 := out.m0 * t.x + out.m4 * t.y + out.m8 * t.z + out.m12
        m13 := out.m1 * t.x + out.m5 * t.y + out.m9 * t.z + out.m13
        m14 := out.m2 * t.x + out.m6 * t.y + out.m10 * t.z + out.m14
        m15 := out.m3 * t.x + out.m7 * t.y + out.m11 * t.z + out.m15 }
  -- apply rotation
  let out :=
    match rotation with
    | none => out
    | some r =>
      -- x rotation
      let s := sinf r.x
      let c := cosf r.x
      let out :=
        { out with
          m4 := out.m4 * c + out.m8 * s
          m5 := out.m5 * c + out.m9 * s
          m6 := out.m6 * c + out.m10 * s
          m7 := out.m7 * c + out.m11 * s
          m8 := out.m8 * c - out.m4 * s
          m9 := out.m9 * c - out.m5 * s
          m10 := out.m10 * c - out.m6 * s
          m11 := out.m11 * c - out.m7 * s }
      -- y rotation
      let s := sinf r.y
      let c := cosf r.y
      let out :=
        { out with
          m0 := out.m0 * c - out.m8 * s
          m1 := out.m1 * c - out.m9 * s
          m2 := out.m2 * c - out.m10 * s
          m3 := out.m3 * c - out.m11 * s
          m8 := out.m0 * s + out.m8 * c
          m9 := out.m1 * s + out.m9 * c
          m10 := out.m2 * s + out.m10 * c
          m11 := out.m3 * s + out.m11 * c }
      -- z rotation
      let s := sinf r.z
      let c := cosf r.z
      { out with
        m0 := out.m0 * c + out.m4 * s
        m1 := out.m1 * c + out.m5 * s
        m2 := out.m2 * c + out.m6 * s
        m3 := out.m3 * c + out.m7 * s
        m4 := out.m4 * c - out.m0 * s
        m5 := out.m5 * c - out.m1 * s
        m6 := out.m6 * c - out.m2 * s
        m7 := out.m7 * c - out.m3 * s }
  -- apply scale
  let out :=
    match scale with
    | none => out
    | some sc =>
      { out with
        m0 := out.m0 * sc.x
        m1 := out.m1 * sc.x
        m2 := out.m2 * sc.x
        m3 := out.m3 * sc.x
        m4 := out.m4 * sc.y
        m5 := out.m5 * sc.y
        m6 := out.m6 * sc.y
        m7 := out.m7 * sc.y
        m8 := out.m8 * sc.z
        m9 := out.m9 * sc.z
        m10 := out.m10 * sc.z
        m11 := out.m11 * sc.z }
  -- turn into 4x3, reset last row
  { out with
    m3 := out.m12
    m7 := out.m13
    m11 := out.m14
    m12 := 0
    m13 := 0
    m14 := 0
    m15 := 0 }

/-! ## Geometry and instance encoding (the loops of `Initialize`) -/

/-- One iteration of the geometry loop of `Initialize` (lines 237-292): the
validation checks in source order followed by the construction of the
`VkGeometryNV` record. -/
def encodeGeometry (g : GeometryDescriptor) : Except ContainerError VkGeometryNV :=
  if g.type ≠ .triangles then
    .error .unsupportedGeometryType
  else if g.vertexBuffer = 0 then
    .error .invalidVertexData
  else
    match g.indexBuffer with
    | some h =>
      if h = 0 then
        .error .invalidIndexData
      else
        .ok
          { flags := VK_GEOMETRY_OPAQUE_BIT_NV
            geometryType := VulkanGeometryType g.type
            triangles :=
              { vertexData := g.vertexBuffer
                vertexOffset := g.vertexOffset
                vertexCount := g.vertexCount
                vertexStride := g.vertexStride
                vertexFormat := VulkanVertexFormat g.vertexFormat
                indexData := h
                indexOffset := g.indexOffset
                indexCount := g.indexCount
                indexType := VulkanIndexFormat g.indexFormat }
            aabbsData := 0 }
    | none =>
      .ok
        { flags := VK_GEOMETRY_OPAQUE_BIT_NV
          geometryType := VulkanGeometryType g.type
          triangles :=
            { vertexData := g.vertexBuffer
              vertexOffset := g.vertexOffset
              vertexCount := g.vertexCount
              vertexStride := g.vertexStride
              vertexFormat := VulkanVertexFormat g.vertexFormat
              indexData := 0
              indexOffset := 0
              indexCount := 0
              indexType := .noneNV }
          aabbsData := 0 }

/-- The whole geometry loop: records are pushed in descriptor order, the first
failing geometry aborts. -/
def encodeGeometries : List GeometryDescriptor → Except ContainerError (List VkGeometryNV)
  | [] => .ok []
  | g :: gs =>
    match encodeGeometry g with
    | .error e => .error e
    | .ok r =>
      match encodeGeometries gs with
      | .error e => .error e
      | .ok rs => .ok (r :: rs)

/-- Whether a geometry descriptor encodes without error. -/
def geometryEncodes (g : GeometryDescriptor) : Bool :=
  match encodeGeometry g with
  | .ok _ => true
  | .error _ => false

/-- One iteration's record of the instance loop of `Initialize` (lines
305-323): the `VkAccelerationInstance` built from a descriptor.  The 24- and
8-bit packed fields truncate their inputs. -/
def encodeInstance (sinf cosf : ℚ → ℚ) (i : InstanceDescriptor) : VkAccelerationInstance :=
  { transform :=
      (Fill4x3TransformMatrix i.transform.translation i.transform.rotation
        i.transform.scale sinf cosf).to4x3
    instanceId := i.instanceId % 2 ^ 24
    mask := i.mask % 2 ^ 8
    instanceOffset := i.instanceOffset % 2 ^ 24
    flags := i.flags % 2 ^ 8
    accelerationStructureHandle := i.geometryContainerHandle }

/-- The whole instance loop: the record is built, then the referenced
container's handle is checked against zero, then the record is pushed. -/
def encodeInstances (sinf cosf : ℚ → ℚ) :
    List InstanceDescriptor → Except ContainerError (List VkAccelerationInstance)
  | [] => .ok []
  | i :: is =>
    let d := encodeInstance sinf cosf i
    if i.geometryContainerHandle = 0 then
      .error .invalidAccelerationHandle
    else
      match encodeInstances sinf cosf is with
      | .error e => .error e
      | .ok rest => .ok (d :: rest)

/-! ## The driver oracle, execution traces, and the step monad -/

/-- `dawn_native::ResourceMemoryAllocation` as seen by this file:
`GetResourceHeap()->GetMemory()` (the backing `VkDeviceMemory`, `0` =
`VK_NULL_HANDLE`) and `GetOffset()`. -/
structure ResourceMemoryAllocation where
  memory : Nat
  offset : Nat
deriving DecidableEq

/-- The driver-requirement classes of
`VkAccelerationStructureMemoryRequirementsTypeNV`. -/
inductive VkMemoryRequirementsType where
  | object
  | buildScratch
  | updateScratch
deriving DecidableEq

/-- One recorded driver-side effect. -/
inductive DriverCall where
  | createAccelerationStructure (info : VkAccelerationStructureCreateInfoNV)
  | createBuffer (size : Nat) (usage : Nat)
  | getBufferMemoryRequirements
  | allocateMemory (size : Nat) (hostVisible : Bool)
  | bindBufferMemory
  | writeMapped (data : List VkAccelerationInstance)
  | createBufferFromResourceMemoryAllocation (size : Nat) (usage : Nat)
  | bindAccelerationStructureMemory (memory : Nat) (offset : Nat)
  | getAccelerationStructureHandle
deriving DecidableEq

/-- The oracle for the device, its function table and its memory allocator:
fixed responses for each driver entry point used by the source file.
`allocate n` is the outcome of the `n`-th `device->AllocateMemory` call
(`none` = failure); `memReqSize` is the raw `VkDeviceSize` (`uint64_t`)
requirement reported per class; `sinf` / `cosf` are the C runtime trig
functions. -/
structure Device where
  hasCreateAccelerationStructureNV : Bool
  createAccelerationStructureOk : Bool
  memReqSize : VkMemoryRequirementsType → Nat
  allocate : Nat → Option ResourceMemoryAllocation
  createBufferOk : Bool
  instanceBufferMemReqSize : Nat
  bindBufferMemoryOk : Bool
  bufferFromAllocationOk : Bool
  bindAccelerationStructureMemoryOk : Bool
  fetchedHandle : Option Nat
  sinf : ℚ → ℚ
  cosf : ℚ → ℚ

/-- Execution state threaded through a run: the trace of driver calls made so
far, and how many `AllocateMemory` calls happened. -/
structure DriverState where
  trace : List DriverCall
  nAllocs : Nat
deriving DecidableEq

/-- Outcome of a step: a value, a recoverable error result, or a hit
`UNREACHABLE()` assertion. -/
inductive StepResult (α : Type) where
  | ok (a : α)
  | err (e : ContainerError)
  | crash
deriving DecidableEq

/-- A step of the construction sequence: deterministic state transformer. -/
def DriverM (α : Type) : Type :=
  DriverState → StepResult α × DriverState

def mPure {α : Type} (a : α) : DriverM α := fun s => (.ok a, s)

def mThrow {α : Type} (e : ContainerError) : DriverM α := fun s => (.err e, s)

def mBind {α β : Type} (x : DriverM α) (f : α → DriverM β) : DriverM β := fun s =>
  match x s with
  | (.ok a, s1) => f a s1
  | (.err e, s1) => (.err e, s1)
  | (.crash, s1) => (.crash, s1)

/-- Modelled from the spec: `UNREACHABLE()` (defined in `common/Assert.h`,
outside this unit) marks an unmatched case of a closed enumeration as "a
programming-error assertion, not a recoverable runtime error"; it never
returns, so it is a distinct `crash` outcome, not an error result. -/
def assertUnreachable {α : Type} : DriverM α := fun s => (.crash, s)

def liftExcept {α : Type} : Except ContainerError α → DriverM α
  | .ok a => mPure a
  | .error e => mThrow e

/-! ## Driver call wrappers -/

/-- `fn.CreateAccelerationStructureNV` via `CheckVkSuccess`. -/
def callCreateAccelerationStructure (dev : Device)
    (info : VkAccelerationStructureCreateInfoNV) : DriverM Unit := fun s =>
  ((if dev.createAccelerationStructureOk then .ok () else .err .vkCreateAccelerationStructureFailed),
   { s with trace := s.trace ++ [.createAccelerationStructure info] })

/-- `fn.CreateBuffer` via `CheckVkSuccess`. -/
def callCreateBuffer (dev : Device) (size usage : Nat) : DriverM Unit := fun s =>
  ((if dev.createBufferOk then .ok () else .err .vkCreateBufferFailed),
   { s with trace := s.trace ++ [.createBuffer size usage] })

/-- `fn.GetBufferMemoryRequirements`: yields the reported size. -/
def callGetBufferMemoryRequirements (dev : Device) : DriverM Nat := fun s =>
  (.ok dev.instanceBufferMemReqSize,
   { s with trace := s.trace ++ [.getBufferMemoryRequirements] })

/-- `device->AllocateMemory(requirements, hostVisible)` (DeviceVk, outside this
unit): consumes the next allocator response; a failure propagates through
`DAWN_TRY_ASSIGN`. -/
def callAllocateMemory (dev : Device) (size : Nat) (hostVisible : Bool) :
    DriverM ResourceMemoryAllocation := fun s =>
  ((match dev.allocate s.nAllocs with
    | some a => .ok a
    | none => .err .allocationFailed),
   { trace := s.trace ++ [.allocateMemory size hostVisible], nAllocs := s.nAllocs + 1 })

/-- `fn.BindBufferMemory` via `CheckVkSuccess`. -/
def callBindBufferMemory (dev : Device) : DriverM Unit := fun s =>
  ((if dev.bindBufferMemoryOk then .ok () else .err .vkBindBufferMemoryFailed),
   { s with trace := s.trace ++ [.bindBufferMemory] })

/-- The `memcpy` of the encoded records into the mapped pointer of the
instance buffer's backing allocation: records the written contents. -/
def writeMappedMemory (data : List VkAccelerationInstance) : DriverM Unit := fun s =>
  (.ok (), { s with trace := s.trace ++ [.writeMapped data] })

/-- Modelled from the spec: `CreateBufferFromResourceMemoryAllocation`
(UtilsVulkan, outside this unit) wraps the build-scratch allocation in a
buffer tagged as ray-tracing-scratch-usable; it is a fallible driver step. -/
def callCreateBufferFromResourceMemoryAllocation (dev : Device) (size usage : Nat) :
    DriverM Unit := fun s =>
  ((if dev.bufferFromAllocationOk then .ok () else .err .bufferFromAllocationFailed),
   { s with trace := s.trace ++ [.createBufferFromResourceMemoryAllocation size usage] })

/-- `fn.BindAccelerationStructureMemoryNV` via `CheckVkSuccess`. -/
def callBindAccelerationStructureMemory (dev : Device) (memory offset : Nat) :
    DriverM Unit := fun s =>
  ((if dev.bindAccelerationStructureMemoryOk then .ok () else .err .vkBindAccelerationStructureMemoryFailed),
   { s with trace := s.trace ++ [.bindAccelerationStructureMemory memory offset] })

/-- `FetchHandle`: `fn.GetAccelerationStructureHandleNV` writing a `uint64_t`. -/
def callFetchHandle (dev : Device) : DriverM Nat := fun s =>
  ((match dev.fetchedHandle with
    | some h => .ok h
    | none => .err .vkGetAccelerationStructureHandleFailed),
   { s with trace := s.trace ++ [.getAccelerationStructureHandle] })

/-! ## Scratch memory -/

/-- One region of `ScratchMemoryPool`: the backing allocation (`none` while
never assigned, as in the default-constructed member) and its offset. -/
structure MemoryEntry where
  resource : Option ResourceMemoryAllocation
  offset : Nat
deriving DecidableEq

structure ScratchMemoryPool where
  result : MemoryEntry
  build : MemoryEntry
  update : MemoryEntry
deriving DecidableEq

/-- `GetMemoryRequirementSize`: the driver-reported `VkDeviceSize` requirement
narrowed to the function's `uint32_t` return type. -/
def GetMemoryRequirementSize (dev : Device) (t : VkMemoryRequirementsType) : Nat :=
  dev.memReqSize t % 2 ^ 32

/-- `ReserveScratchMemory` (lines 389-459): query the three requirement
classes, allocate result and build memory, wrap the build allocation in a
ray-tracing-usable buffer, allocate update memory only when its reported size
is positive, then check the result allocation's backing memory and bind it to
the structure with a single `vkBindAccelerationStructureMemoryNV` call. -/
def ReserveScratchMemory (dev : Device) : DriverM ScratchMemoryPool :=
  let resultSize := GetMemoryRequirementSize dev .object
  let buildSize := GetMemoryRequirementSize dev .buildScratch
  let updateSize := GetMemoryRequirementSize dev .updateScratch
  mBind (callAllocateMemory dev resultSize false) fun resultRes =>
  mBind (callAllocateMemory dev buildSize false) fun buildRes =>
  mBind (callCreateBufferFromResourceMemoryAllocation dev buildSize
          VK_BUFFER_USAGE_RAY_TRACING_BIT_NV) fun _ =>
  mBind (if 0 < updateSize then
           mBind (callAllocateMemory dev updateSize false) fun u =>
           mPure ({ resource := some u, offset := u.offset } : MemoryEntry)
         else
           mPure ({ resource := none, offset := 0 } : MemoryEntry)) fun updateEntry =>
  -- make sure the memory got allocated properly
  if resultRes.memory = 0 then
    mThrow .memoryBindFailed
  else
    mBind (callBindAccelerationStructureMemory dev resultRes.memory resultRes.offset) fun _ =>
    mPure
      { result := { resource := some resultRes, offset := resultRes.offset }
        build := { resource := some buildRes, offset := buildRes.offset }
        update := updateEntry }

/-! ## Structure creation -/

/-- The `VkAccelerationStructureCreateInfoNV` filled by
`CreateAccelerationStructure` (lines 489-509): the build preference is the
constant fast-trace bit, the level selects counts and geometry list, and any
other level is the "Invalid Acceleration Container Level" validation error. -/
def accelerationStructureCreateInfo (desc : ContainerDescriptor)
    (geoms : List VkGeometryNV) : Except ContainerError VkAccelerationStructureCreateInfoNV :=
  let flags := VK_BUILD_ACCELERATION_STRUCTURE_PREFER_FAST_TRACE_BIT_NV
  match desc.level with
  | .top =>
    .ok
      { compactedSize := 0
        info :=
          { type := .topLevel
            flags := flags
            instanceCount := desc.instances.length
            geometryCount := 0
            geometries := [] } }
  | .bottom =>
    .ok
      { compactedSize := 0
        info :=
          { type := .bottomLevel
            flags := flags
            instanceCount := 0
            geometryCount := desc.geometries.length
            geometries := geoms } }
  | .other => .error .invalidLevel

/-- `CreateAccelerationStructure`: build the create info, then call the
driver. -/
def CreateAccelerationStructure (dev : Device) (desc : ContainerDescriptor)
    (geoms : List VkGeometryNV) : DriverM Unit :=
  mBind (liftExcept (accelerationStructureCreateInfo desc geoms)) fun info =>
  callCreateAccelerationStructure dev info

/-! ## The container and `Initialize` -/

/-- The state captured by a fully initialized
`RayTracingAccelerationContainer`. -/
structure RayTracingAccelerationContainer where
  mLevel : VkAccelerationStructureTypeNV
  mFlags : Nat
  mGeometries : List VkGeometryNV
  mInstances : List VkAccelerationInstance
  mInstanceResource : Option ResourceMemoryAllocation
  mScratchMemory : ScratchMemoryPool
  mHandle : Nat
deriving DecidableEq

def RayTracingAccelerationContainer.GetFlags (c : RayTracingAccelerationContainer) : Nat :=
  c.mFlags

def RayTracingAccelerationContainer.GetHandle (c : RayTracingAccelerationContainer) : Nat :=
  c.mHandle

def RayTracingAccelerationContainer.GetLevel (c : RayTracingAccelerationContainer) :
    VkAccelerationStructureTypeNV :=
  c.mLevel

def RayTracingAccelerationContainer.GetScratchMemory (c : RayTracingAccelerationContainer) :
    ScratchMemoryPool :=
  c.mScratchMemory

/-- `mLevel = VulkanAccelerationContainerLevel(descriptor->level)`: the first
statement of `Initialize`; an unmatched level hits `UNREACHABLE()`. -/
def captureLevel (desc : ContainerDescriptor) : DriverM VkAccelerationStructureTypeNV :=
  match VulkanAccelerationContainerLevel desc.level with
  | some l => mPure l
  | none => assertUnreachable

/-- The "validate ray tracing calls" check (line 231). -/
def capabilityCheck (dev : Device) : DriverM Unit :=
  if dev.hasCreateAccelerationStructureNV then mPure () else mThrow .unsupportedFeature

/-- The geometry stage: the encoding loop runs only for Bottom containers. -/
def geometryStage (desc : ContainerDescriptor) : DriverM (List VkGeometryNV) :=
  if desc.level = .bottom then liftExcept (encodeGeometries desc.geometries) else mPure []

/-- The instance stage: the encoding loop runs only for Top containers. -/
def instanceStage (dev : Device) (desc : ContainerDescriptor) :
    DriverM (List VkAccelerationInstance) :=
  if desc.level = .top then liftExcept (encodeInstances dev.sinf dev.cosf desc.instances)
  else mPure []

/-- The instance-buffer stage (lines 327-358), Top containers only: create a
transfer-source buffer of `instanceCount * sizeof(VkAccelerationInstance)`
bytes, allocate host-visible backing memory for its reported requirements,
bind it, and copy the encoded records into the mapped region. -/
def instanceBufferStage (dev : Device) (desc : ContainerDescriptor)
    (insts : List VkAccelerationInstance) : DriverM (Option ResourceMemoryAllocation) :=
  if desc.level = .top then
    mBind (callCreateBuffer dev (desc.instances.length * sizeofVkAccelerationInstance)
            VK_BUFFER_USAGE_TRANSFER_SRC_BIT) fun _ =>
    mBind (callGetBufferMemoryRequirements dev) fun req =>
    mBind (callAllocateMemory dev req true) fun alloc =>
    mBind (callBindBufferMemory dev) fun _ =>
    mBind (writeMappedMemory insts) fun _ =>
    mPure (some alloc)
  else mPure none

/-- `RayTracingAccelerationContainer::Initialize`: the fixed construction
sequence, each step gating the next.  (`mFlags` is captured right after
`mLevel`, before the capability check; it is a pure value, threaded into the
final record.) -/
def Init (dev : Device) (desc : ContainerDescriptor) : DriverM RayTracingAccelerationContainer :=
  mBind (captureLevel desc) fun mLevel =>
  mBind (capabilityCheck dev) fun _ =>
  mBind (geometryStage desc) fun geoms =>
  mBind (CreateAccelerationStructure dev desc geoms) fun _ =>
  mBind (instanceStage dev desc) fun insts =>
  mBind (instanceBufferStage dev desc insts) fun instRes =>
  mBind (ReserveScratchMemory dev) fun pool =>
  mBind (callFetchHandle dev) fun h =>
  mPure
    { mLevel := mLevel
      mFlags := VulkanBuildAccelerationStructureFlags desc.flags
      mGeometries := geoms
      mInstances := insts
      mInstanceResource := instRes
      mScratchMemory := pool
      mHandle := h }

/-- The empty starting state of one `Create` call. -/
def initialState : DriverState := { trace := [], nAllocs := 0 }

/-- Counts the `vkBindAccelerationStructureMemoryNV` calls in a trace. -/
def countBindAS (l : List DriverCall) : Nat :=
  l.countP fun c =>
    match c with
    | .bindAccelerationStructureMemory _ _ => true
    | _ => false

/-- Counts the `device->AllocateMemory` calls in a trace. -/
def countAllocs (l : List DriverCall) : Nat :=
  l.countP fun c =>
    match c with
    | .allocateMemory _ _ => true
    | _ => false

/-- The driver-call segment `ReserveScratchMemory` appends on a successful
run that binds memory `mem` at offset `off`. -/
def scratchCalls (dev : Device) (mem off : Nat) : List DriverCall :=
  [.allocateMemory (GetMemoryRequirementSize dev .object) false,
   .allocateMemory (GetMemoryRequirementSize dev .buildScratch) false,
   .createBufferFromResourceMemoryAllocation (GetMemoryRequirementSize dev .buildScratch)
     VK_BUFFER_USAGE_RAY_TRACING_BIT_NV] ++
  (if 0 < GetMemoryRequirementSize dev .updateScratch then
     [.allocateMemory (GetMemoryRequirementSize dev .updateScratch) false]
   else []) ++
  [.bindAccelerationStructureMemory mem off]

/-- The driver-call segment the instance-buffer stage appends on a successful
run writing the record list `insts`. -/
def instanceBufferCalls (dev : Device) (desc : ContainerDescriptor)
    (insts : List VkAccelerationInstance) : List DriverCall :=
  [.createBuffer (desc.instances.length * sizeofVkAccelerationInstance)
     VK_BUFFER_USAGE_TRANSFER_SRC_BIT,
   .getBufferMemoryRequirements,
   .allocateMemory dev.instanceBufferMemReqSize true,
   .bindBufferMemory,
   .writeMapped insts]

/-! ## Concrete devices and descriptors used to instantiate the theorems -/

/-- A fully functional device: every entry point present and succeeding, the
`n`-th allocation backed by nonzero memory handle `n + 1`. -/
def devOk : Device :=
  { hasCreateAccelerationStructureNV := true
    createAccelerationStructureOk := true
    memReqSize := fun t =>
      match t with
      | .object => 256
      | .buildScratch => 128
      | .updateScratch => 64
    allocate := fun n => some { memory := n + 1, offset := 16 * n }
    createBufferOk := true
    instanceBufferMemReqSize := 96
    bindBufferMemoryOk := true
    bufferFromAllocationOk := true
    bindAccelerationStructureMemoryOk := true
    fetchedHandle := some 42
    sinf := fun _ => 0
    cosf := fun _ => 1 }

/-- Like `devOk`, but the driver reports an update-scratch requirement of
exactly `2 ^ 32` bytes (a nonzero `VkDeviceSize` that the `uint32_t`
narrowing turns into `0`). -/
def devBigUpdate : Device :=
  { devOk with
    memReqSize := fun t =>
      match t with
      | .object => 256
      | .buildScratch => 128
      | .updateScratch => 2 ^ 32 }

/-- A well-formed triangle geometry backed by buffer handle `7`. -/
def triangleGeometry : GeometryDescriptor :=
  { type := .triangles
    vertexBuffer := 7
    vertexOffset := 0
    vertexCount := 3
    vertexStride := 12
    vertexFormat := .float3
    indexBuffer := none
    indexOffset := 0
    indexCount := 0
    indexFormat := .noIndex }

/-- A geometry that is both non-Triangles and unbacked. -/
def aabbNullGeometry : GeometryDescriptor :=
  { triangleGeometry with type := .aabbs, vertexBuffer := 0 }

/-- A triangle geometry whose vertex buffer has a null native handle. -/
def nullVertexGeometry : GeometryDescriptor :=
  { triangleGeometry with vertexBuffer := 0 }

/-- An instance descriptor with identity transform referencing the container
handle `h`. -/
def identityInstance (h : Nat) : InstanceDescriptor :=
  { transform := { translation := none, rotation := none, scale := none }
    instanceId := 5
    mask := 255
    instanceOffset := 0
    flags := 1
    geometryContainerHandle := h }

/-- A Bottom-level descriptor with one triangle geometry. -/
def descBottom1 : ContainerDescriptor :=
  { level := .bottom
    flags := { allowUpdate := true, preferFastBuild := false,
               preferFastTrace := false, lowMemory := true }
    geometries := [triangleGeometry]
    instances := [] }

/-- A Bottom-level descriptor with no geometries. -/
def descBottomEmpty : ContainerDescriptor :=
  { descBottom1 with geometries := [] }

/-- A Top-level descriptor with one instance referencing handle `99`. -/
def descTop1 : ContainerDescriptor :=
  { level := .top
    flags := { allowUpdate := false, preferFastBuild := true,
               preferFastTrace := false, lowMemory := false }
    geometries := []
    instances := [identityInstance 99] }

/-- A Top-level descriptor with one instance referencing a container whose
opaque handle is still zero. -/
def descTopZeroHandle : ContainerDescriptor :=
  { descTop1 with instances := [identityInstance 0] }

/-- A descriptor whose level is neither Top nor Bottom. -/
def descOther : ContainerDescriptor :=
  { descBottomEmpty with level := .other }

def dummyContainer : RayTracingAccelerationContainer :=
  { mLevel := .bottomLevel
    mFlags := 0
    mGeometries := []
    mInstances := []
    mInstanceResource := none
    mScratchMemory :=
      { result := { resource := none, offset := 0 }
        build := { resource := none, offset := 0 }
        update := { resource := none, offset := 0 } }
    mHandle := 0 }

/-- The container a given device/descriptor pair produces (meaningful when the
run succeeds). -/
def okContainer (dev : Device) (desc : ContainerDescriptor) : RayTracingAccelerationContainer :=
  match (Init dev desc initialState).1 with
  | .ok c => c
  | _ => dummyContainer

/-- The final driver state of a given device/descriptor pair. -/
def finalState (dev : Device) (desc : ContainerDescriptor) : DriverState :=
  (Init dev desc initialState).2

/-- The record `triangleGeometry` encodes to. -/
def triangleRecord : VkGeometryNV :=
  { flags := VK_GEOMETRY_OPAQUE_BIT_NV
    geometryType := .trianglesNV
    triangles :=
      { vertexData := 7, vertexOffset := 0, vertexCount := 3, vertexStride := 12
        vertexFormat := .r32g32b32Sfloat, indexData := 0, indexOffset := 0
        indexCount := 0, indexType := .noneNV }
    aabbsData := 0 }

/-- The create info a successful `accelerationStructureCreateInfo` yields. -/
def okCreateInfo (x : Except ContainerError VkAccelerationStructureCreateInfoNV) :
    VkAccelerationStructureCreateInfoNV :=
  match x with
  | .ok i => i
  | .error _ =>
    { compactedSize := 0
      info := { type := .bottomLevel, flags := 0, instanceCount := 0, geometryCount := 0
                geometries := [] } }

/-! ## Inversion lemmas for the step monad -/

theorem mBind_eq_ok {α β : Type} {x : DriverM α} {f : α → DriverM β} {s : DriverState}
    {b : β} {s2 : DriverState} :
    mBind x f s = (.ok b, s2) ↔ ∃ a s1, x s = (.ok a, s1) ∧ f a s1 = (.ok b, s2) := by
  unfold mBind
  rcases hx : x s with ⟨r, st⟩
  cases r with
  | ok a =>
    simp only [hx]
    constructor
    · intro h
      exact ⟨a, st, rfl, h⟩
    · rintro ⟨a1, s1, heq, h⟩
      cases heq
      exact h
  | err e => simp_all
  | crash => simp_all

theorem mPure_eq_ok {α : Type} {a b : α} {s s2 : DriverState} :
    mPure a s = (.ok b, s2) ↔ b = a ∧ s2 = s := by
  unfold mPure
  constructor
  · intro h
    exact ⟨(StepResult.ok.inj (congrArg Prod.fst h)).symm, (congrArg Prod.snd h).symm⟩
  · rintro ⟨rfl, rfl⟩
    rfl

theorem liftExcept_eq_ok {α : Type} {x : Except ContainerError α} {b : α} {s s2 : DriverState} :
    liftExcept x s = (.ok b, s2) ↔ x = .ok b ∧ s2 = s := by
  cases x with
  | ok a =>
    simp only [liftExcept, mPure_eq_ok, Except.ok.injEq]
    constructor
    · rintro ⟨rfl, rfl⟩
      exact ⟨rfl, rfl⟩
    · rintro ⟨rfl, rfl⟩
      exact ⟨rfl, rfl⟩
  | error e =>
    simp only [liftExcept]
    constructor
    · intro h
      simp [mThrow] at h
    · rintro ⟨h, -⟩
      cases h

/-! ## Theorems -/

/-- C8: composing a transform with all three components absent yields exactly
the identity 4x3 matrix, rows `(1,0,0,0)`, `(0,1,0,0)`, `(0,0,1,0)`. -/
theorem c8_identity_compose (sinf cosf : ℚ → ℚ) :
    (Fill4x3TransformMatrix none none none sinf cosf).to4x3 =
      { m0 := 1, m1 := 0, m2 := 0, m3 := 0
        m4 := 0, m5 := 1, m6 := 0, m7 := 0
        m8 := 0, m9 := 0, m10 := 1, m11 := 0 } := by
  rfl

/-- C9: composing translation `(5,0,0)`, no rotation and scale `(2,2,2)`
yields a matrix whose translation column (slots `m3`, `m7`, `m11`) is still
`(5,0,0)`, the scale multiplying only the basis columns. -/
theorem c9_scale_preserves_translation (sinf cosf : ℚ → ℚ) :
    (Fill4x3TransformMatrix (some ⟨5, 0, 0⟩) none (some ⟨2, 2, 2⟩) sinf cosf).to4x3 =
      { m0 := 2, m1 := 0, m2 := 0, m3 := 5
        m4 := 0, m5 := 2, m6 := 0, m7 := 0
        m8 := 0, m9 := 0, m10 := 2, m11 := 0 } := by
  show TransformMatrix4x3.mk (1 * 2) (0 * 2) (0 * 2) (1 * 5 + 0 * 0 + 0 * 0 + 0)
      (0 * 2) (1 * 2) (0 * 2) (0 * 5 + 1 * 0 + 0 * 0 + 0)
      (0 * 2) (0 * 2) (1 * 2) (0 * 5 + 0 * 0 + 1 * 0 + 0) = _
  norm_num

/-- A geometry that encodes successfully yields a record; helper for walking
past well-formed prefixes. -/
theorem geometryEncodes_ok {g : GeometryDescriptor} (h : geometryEncodes g = true) :
    ∃ r, encodeGeometry g = .ok r := by
  unfold geometryEncodes at h
  rcases hg : encodeGeometry g with e | r
  · rw [hg] at h
    cases h
  · exact ⟨r, rfl⟩

/-- C5: within a Bottom container's geometry loop, a geometry whose type is
not Triangles fails the encoding with `UnsupportedGeometryType` (even when its
vertex buffer is also unbacked, the type check coming first), and a Triangles
geometry whose vertex buffer has a null native handle fails it with
`InvalidVertexData`; geometries before the failing one must encode cleanly for
the loop to reach it. -/
theorem c5_geometry_validation (pre : List GeometryDescriptor) (g : GeometryDescriptor)
    (suf : List GeometryDescriptor) (hpre : ∀ p ∈ pre, geometryEncodes p = true) :
    (g.type ≠ .triangles →
      encodeGeometries (pre ++ g :: suf) = .error .unsupportedGeometryType) ∧
    (g.type = .triangles → g.vertexBuffer = 0 →
      encodeGeometries (pre ++ g :: suf) = .error .invalidVertexData) := by
  induction pre with
  | nil =>
    constructor
    · intro ht
      simp [encodeGeometries, encodeGeometry, ht]
    · intro ht hv
      simp [encodeGeometries, encodeGeometry, ht, hv]
  | cons p ps ih =>
    obtain ⟨r, hr⟩ := geometryEncodes_ok (hpre p (by simp))
    have hps : ∀ q ∈ ps, geometryEncodes q = true := fun q hq => hpre q (by simp [hq])
    obtain ⟨ih1, ih2⟩ := ih hps
    constructor
    · intro ht
      simp [encodeGeometries, hr, ih1 ht]
    · intro ht hv
      simp [encodeGeometries, hr, ih2 ht hv]

/-- C5 witness: a concrete loop where the bad geometry fails with the expected
error in each of the two situations. -/
theorem c5_geometry_validation_witness :
    encodeGeometries [triangleGeometry, aabbNullGeometry] =
        .error .unsupportedGeometryType ∧
    encodeGeometries [triangleGeometry, nullVertexGeometry] =
        .error .invalidVertexData := by
  constructor
  · exact (c5_geometry_validation [triangleGeometry] aabbNullGeometry []
      (by decide)).1 (by decide)
  · exact (c5_geometry_validation [triangleGeometry] nullVertexGeometry []
      (by decide)).2 (by decide) (by decide)

/-- Every record produced by a successful single-geometry encoding carries the
opaque flag. -/
theorem encodeGeometry_flags {g : GeometryDescriptor} {r : VkGeometryNV}
    (h : encodeGeometry g = .ok r) : r.flags = VK_GEOMETRY_OPAQUE_BIT_NV := by
  unfold encodeGeometry at h
  repeat' split at h
  all_goals cases h
  all_goals rfl

/-- C10: every geometry record produced by a successful Bottom-level encoding
carries the opaque-geometry flag `VK_GEOMETRY_OPAQUE_BIT_NV`, whatever the
fields of the geometry descriptors (which expose no opacity choice). -/
theorem c10_opaque_flag (gs : List GeometryDescriptor) (rs : List VkGeometryNV)
    (h : encodeGeometries gs = .ok rs) :
    ∀ r ∈ rs, r.flags = VK_GEOMETRY_OPAQUE_BIT_NV := by
  induction gs generalizing rs with
  | nil =>
    unfold encodeGeometries at h
    cases h
    intro r hr
    cases hr
  | cons g gs ih =>
    unfold encodeGeometries at h
    rcases hg : encodeGeometry g with e | r0
    · rw [hg] at h
      cases h
    · rw [hg] at h
      rcases hgs : encodeGeometries gs with e | rs0
      · rw [hgs] at h
        cases h
      · rw [hgs] at h
        cases h
        intro r hr
        rcases List.mem_cons.1 hr with rfl | hmem
        · exact encodeGeometry_flags hg
        · exact ih rs0 hgs r hmem

/-- C10 witness: the concrete one-triangle encoding, with the flag of its one
record evaluated. -/
theorem c10_opaque_flag_witness :
    triangleRecord.flags = VK_GEOMETRY_OPAQUE_BIT_NV :=
  c10_opaque_flag [triangleGeometry] [triangleRecord] (by rfl) triangleRecord
    (List.mem_singleton.mpr rfl)

/-- The instance loop rejects a list containing a zero opaque handle with
`InvalidAccelerationHandle` (the check aborts at the first zero handle, and no
other failure exists in the loop). -/
theorem encodeInstances_zero_handle (sinf cosf : ℚ → ℚ) (l : List InstanceDescriptor)
    (h : ∃ i ∈ l, i.geometryContainerHandle = 0) :
    encodeInstances sinf cosf l = .error .invalidAccelerationHandle := by
  induction l with
  | nil =>
    rcases h with ⟨i, hi, -⟩
    cases hi
  | cons i is ih =>
    by_cases h0 : i.geometryContainerHandle = 0
    · simp [encodeInstances, h0]
    · rcases h with ⟨j, hj, hjz⟩
      rcases List.mem_cons.1 hj with rfl | hmem
      · exact absurd hjz h0
      · have hrec := ih ⟨j, hmem, hjz⟩
        simp [encodeInstances, h0, hrec]

/-- C4: a Top-level `Initialize` that reaches the instance-encoding step (the
ray-tracing entry points are present and structure creation succeeded) fails
with `InvalidAccelerationHandle` whenever some instance references a container
whose opaque handle is still zero. -/
theorem c4_zero_handle_fails (dev : Device) (desc : ContainerDescriptor) (s : DriverState)
    (hl : desc.level = .top)
    (hcap : dev.hasCreateAccelerationStructureNV = true)
    (hcr : dev.createAccelerationStructureOk = true)
    (hz : ∃ i ∈ desc.instances, i.geometryContainerHandle = 0) :
    (Init dev desc s).1 = .err .invalidAccelerationHandle := by
  have henc := encodeInstances_zero_handle dev.sinf dev.cosf desc.instances hz
  simp [Init, mBind, captureLevel, hl, VulkanAccelerationContainerLevel, mPure,
    capabilityCheck, hcap, geometryStage, CreateAccelerationStructure,
    accelerationStructureCreateInfo, liftExcept, callCreateAccelerationStructure, hcr,
    instanceStage, henc, mThrow]

/-- C4 witness: the concrete Top-level run whose single instance references
handle `0`. -/
theorem c4_zero_handle_fails_witness :
    (Init devOk descTopZeroHandle initialState).1 = .err .invalidAccelerationHandle :=
  c4_zero_handle_fails devOk descTopZeroHandle initialState rfl rfl rfl
    ⟨identityInstance 0, by simp [descTopZeroHandle, descTop1], rfl⟩

theorem countBindAS_append (a b : List DriverCall) :
    countBindAS (a ++ b) = countBindAS a + countBindAS b :=
  List.countP_append _ _ _

/-- C6: during scratch binding, with the preceding allocations succeeding, a
result allocation that resolves to a null memory handle makes
`ReserveScratchMemory` fail with `MemoryBindFailed` without any
`vkBindAccelerationStructureMemoryNV` call; otherwise exactly one bind call is
made and a driver failure of that call is surfaced as the result. -/
theorem c6_scratch_bind (dev : Device) (tr : List DriverCall) (n : Nat)
    (aR aB : ResourceMemoryAllocation)
    (hR : dev.allocate n = some aR)
    (hB : dev.allocate (n + 1) = some aB)
    (hBuf : dev.bufferFromAllocationOk = true)
    (hU : 0 < GetMemoryRequirementSize dev .updateScratch →
      ∃ aU, dev.allocate (n + 2) = some aU) :
    (aR.memory = 0 →
      (ReserveScratchMemory dev ⟨tr, n⟩).1 = .err .memoryBindFailed ∧
      countBindAS (ReserveScratchMemory dev ⟨tr, n⟩).2.trace = countBindAS tr) ∧
    (aR.memory ≠ 0 →
      countBindAS (ReserveScratchMemory dev ⟨tr, n⟩).2.trace = countBindAS tr + 1 ∧
      (dev.bindAccelerationStructureMemoryOk = true →
        ∃ pool, (ReserveScratchMemory dev ⟨tr, n⟩).1 = .ok pool) ∧
      (dev.bindAccelerationStructureMemoryOk = false →
        (ReserveScratchMemory dev ⟨tr, n⟩).1 =
          .err .vkBindAccelerationStructureMemoryFailed)) := by
  by_cases hup : 0 < GetMemoryRequirementSize dev .updateScratch
  · obtain ⟨aU, hUU⟩ := hU hup
    constructor
    · intro hm
      simp [ReserveScratchMemory, mBind, callAllocateMemory, hR, hB, hBuf,
        callCreateBufferFromResourceMemoryAllocation, hup, hUU, mPure, mThrow, hm,
        countBindAS_append, countBindAS]
    · intro hm
      rcases hbind : dev.bindAccelerationStructureMemoryOk with _ | _ <;>
        simp [ReserveScratchMemory, mBind, callAllocateMemory, hR, hB, hBuf,
          callCreateBufferFromResourceMemoryAllocation, hup, hUU, mPure, mThrow, hm,
          callBindAccelerationStructureMemory, hbind, countBindAS_append, countBindAS]
  · constructor
    · intro hm
      simp [ReserveScratchMemory, mBind, callAllocateMemory, hR, hB, hBuf,
        callCreateBufferFromResourceMemoryAllocation, hup, mPure, mThrow, hm,
        countBindAS_append, countBindAS]
    · intro hm
      rcases hbind : dev.bindAccelerationStructureMemoryOk with _ | _ <;>
        simp [ReserveScratchMemory, mBind, callAllocateMemory, hR, hB, hBuf,
          callCreateBufferFromResourceMemoryAllocation, hup, mPure, mThrow, hm,
          callBindAccelerationStructureMemory, hbind, countBindAS_append, countBindAS]

/-- C6 witness: the concrete device whose result allocation is backed by the
nonzero memory handle `1`: one bind call, successful result. -/
theorem c6_scratch_bind_witness :
    (({ memory := 1, offset := 0 } : ResourceMemoryAllocation).memory = 0 →
      (ReserveScratchMemory devOk ⟨[], 0⟩).1 = .err .memoryBindFailed ∧
      countBindAS (ReserveScratchMemory devOk ⟨[], 0⟩).2.trace = countBindAS []) ∧
    (({ memory := 1, offset := 0 } : ResourceMemoryAllocation).memory ≠ 0 →
      countBindAS (ReserveScratchMemory devOk ⟨[], 0⟩).2.trace = countBindAS [] + 1 ∧
      (devOk.bindAccelerationStructureMemoryOk = true →
        ∃ pool, (ReserveScratchMemory devOk ⟨[], 0⟩).1 = .ok pool) ∧
      (devOk.bindAccelerationStructureMemoryOk = false →
        (ReserveScratchMemory devOk ⟨[], 0⟩).1 =
          .err .vkBindAccelerationStructureMemoryFailed)) :=
  c6_scratch_bind devOk [] 0 ⟨1, 0⟩ ⟨2, 16⟩ rfl rfl rfl (fun _ => ⟨⟨3, 32⟩, rfl⟩)

/-! ## Characterizations of the traced driver calls -/

theorem captureLevel_eq_ok {desc : ContainerDescriptor} {s : DriverState}
    {b : VkAccelerationStructureTypeNV} {s2 : DriverState} :
    captureLevel desc s = (.ok b, s2) ↔
      VulkanAccelerationContainerLevel desc.level = some b ∧ s2 = s := by
  unfold captureLevel
  rcases hl : VulkanAccelerationContainerLevel desc.level with _ | l <;>
    simp [hl, mPure, assertUnreachable, eq_comm]

theorem capabilityCheck_eq_ok {dev : Device} {s : DriverState} {b : Unit} {s2 : DriverState} :
    capabilityCheck dev s = (.ok b, s2) ↔
      dev.hasCreateAccelerationStructureNV = true ∧ s2 = s := by
  unfold capabilityCheck
  rcases dev.hasCreateAccelerationStructureNV with _ | _ <;>
    simp [mPure, mThrow, eq_comm]

theorem callCreateAccelerationStructure_eq_ok {dev : Device}
    {info : VkAccelerationStructureCreateInfoNV} {s : DriverState} {b : Unit}
    {s2 : DriverState} :
    callCreateAccelerationStructure dev info s = (.ok b, s2) ↔
      dev.createAccelerationStructureOk = true ∧
      s2 = { s with trace := s.trace ++ [.createAccelerationStructure info] } := by
  unfold callCreateAccelerationStructure
  rcases dev.createAccelerationStructureOk with _ | _ <;> simp [eq_comm]

theorem callCreateBuffer_eq_ok {dev : Device} {size usage : Nat} {s : DriverState} {b : Unit}
    {s2 : DriverState} :
    callCreateBuffer dev size usage s = (.ok b, s2) ↔
      dev.createBufferOk = true ∧
      s2 = { s with trace := s.trace ++ [.createBuffer size usage] } := by
  unfold callCreateBuffer
  rcases dev.createBufferOk with _ | _ <;> simp [eq_comm]

theorem callGetBufferMemoryRequirements_eq_ok {dev : Device} {s : DriverState} {b : Nat}
    {s2 : DriverState} :
    callGetBufferMemoryRequirements dev s = (.ok b, s2) ↔
      b = dev.instanceBufferMemReqSize ∧
      s2 = { s with trace := s.trace ++ [.getBufferMemoryRequirements] } := by
  unfold callGetBufferMemoryRequirements
  simp [eq_comm]

theorem callAllocateMemory_eq_ok {dev : Device} {size : Nat} {hv : Bool} {s : DriverState}
    {b : ResourceMemoryAllocation} {s2 : DriverState} :
    callAllocateMemory dev size hv s = (.ok b, s2) ↔
      dev.allocate s.nAllocs = some b ∧
      s2 = { trace := s.trace ++ [.allocateMemory size hv], nAllocs := s.nAllocs + 1 } := by
  unfold callAllocateMemory
  rcases ha : dev.allocate s.nAllocs with _ | a <;> simp [ha, eq_comm]

theorem callBindBufferMemory_eq_ok {dev : Device} {s : DriverState} {b : Unit}
    {s2 : DriverState} :
    callBindBufferMemory dev s = (.ok b, s2) ↔
      dev.bindBufferMemoryOk = true ∧
      s2 = { s with trace := s.trace ++ [.bindBufferMemory] } := by
  unfold callBindBufferMemory
  rcases dev.bindBufferMemoryOk with _ | _ <;> simp [eq_comm]

theorem writeMappedMemory_eq_ok {data : List VkAccelerationInstance} {s : DriverState}
    {b : Unit} {s2 : DriverState} :
    writeMappedMemory data s = (.ok b, s2) ↔
      s2 = { s with trace := s.trace ++ [.writeMapped data] } := by
  unfold writeMappedMemory
  simp [eq_comm]

theorem callCreateBufferFromResourceMemoryAllocation_eq_ok {dev : Device} {size usage : Nat}
    {s : DriverState} {b : Unit} {s2 : DriverState} :
    callCreateBufferFromResourceMemoryAllocation dev size usage s = (.ok b, s2) ↔
      dev.bufferFromAllocationOk = true ∧
      s2 = { s with
             trace := s.trace ++ [.createBufferFromResourceMemoryAllocation size usage] } := by
  unfold callCreateBufferFromResourceMemoryAllocation
  rcases dev.bufferFromAllocationOk with _ | _ <;> simp [eq_comm]

theorem callBindAccelerationStructureMemory_eq_ok {dev : Device} {memory offset : Nat}
    {s : DriverState} {b : Unit} {s2 : DriverState} :
    callBindAccelerationStructureMemory dev memory offset s = (.ok b, s2) ↔
      dev.bindAccelerationStructureMemoryOk = true ∧
      s2 = { s with
             trace := s.trace ++ [.bindAccelerationStructureMemory memory offset] } := by
  unfold callBindAccelerationStructureMemory
  rcases dev.bindAccelerationStructureMemoryOk with _ | _ <;> simp [eq_comm]

theorem callFetchHandle_eq_ok {dev : Device} {s : DriverState} {b : Nat} {s2 : DriverState} :
    callFetchHandle dev s = (.ok b, s2) ↔
      dev.fetchedHandle = some b ∧
      s2 = { s with trace := s.trace ++ [.getAccelerationStructureHandle] } := by
  unfold callFetchHandle
  rcases hf : dev.fetchedHandle with _ | h <;> simp [hf, eq_comm]

/-- A successful `ReserveScratchMemory` run appends exactly the scratch
driver-call segment (one dedicated allocation per class, sized by
`GetMemoryRequirementSize`, the update one only when that size is positive,
then one bind call), and the pool's update region is populated exactly when
the update-scratch size is positive. -/
theorem ReserveScratchMemory_ok_spec {dev : Device} {s : DriverState}
    {pool : ScratchMemoryPool} {s2 : DriverState}
    (h : ReserveScratchMemory dev s = (.ok pool, s2)) :
    ∃ mem off, mem ≠ 0 ∧ s2.trace = s.trace ++ scratchCalls dev mem off ∧
      (pool.update.resource = none ↔ GetMemoryRequirementSize dev .updateScratch = 0) := by
  simp only [ReserveScratchMemory, mBind_eq_ok, callAllocateMemory_eq_ok,
    callCreateBufferFromResourceMemoryAllocation_eq_ok] at h
  obtain ⟨aR, s1, ⟨hRa, rfl⟩, aB, s2', ⟨hBa, rfl⟩, u1, s3, ⟨hbuf, rfl⟩, upd, s4, hupd, h⟩ := h
  by_cases hup : 0 < GetMemoryRequirementSize dev .updateScratch
  · rw [if_pos hup] at hupd
    simp only [mBind_eq_ok, callAllocateMemory_eq_ok, mPure_eq_ok] at hupd
    obtain ⟨aU, s5, ⟨hUa, rfl⟩, rfl, rfl⟩ := hupd
    by_cases hm : aR.memory = 0
    · rw [if_pos hm] at h
      cases h
    · rw [if_neg hm] at h
      simp only [mBind_eq_ok, callBindAccelerationStructureMemory_eq_ok, mPure_eq_ok] at h
      obtain ⟨u2, s6, ⟨hbind, rfl⟩, rfl, rfl⟩ := h
      refine ⟨aR.memory, aR.offset, hm, ?_, ?_⟩
      · simp [scratchCalls, hup]
      · simp [Nat.pos_iff_ne_zero.1 hup]
  · rw [if_neg hup] at hupd
    simp only [mPure_eq_ok] at hupd
    obtain ⟨rfl, rfl⟩ := hupd
    by_cases hm : aR.memory = 0
    · rw [if_pos hm] at h
      cases h
    · rw [if_neg hm] at h
      simp only [mBind_eq_ok, callBindAccelerationStructureMemory_eq_ok, mPure_eq_ok] at h
      obtain ⟨u2, s6, ⟨hbind, rfl⟩, rfl, rfl⟩ := h
      refine ⟨aR.memory, aR.offset, hm, ?_, ?_⟩
      · simp [scratchCalls, hup]
      · simpa using Nat.eq_zero_of_not_pos hup

theorem bottom_eq_top_false : (ContainerLevel.bottom = ContainerLevel.top) = False :=
  eq_false (by decide)

theorem top_eq_bottom_false : (ContainerLevel.top = ContainerLevel.bottom) = False :=
  eq_false (by decide)

/-- A successful instance loop yields exactly the record of each descriptor,
in descriptor order. -/
theorem encodeInstances_ok_map {sf cf : ℚ → ℚ} {l : List InstanceDescriptor}
    {rs : List VkAccelerationInstance} (h : encodeInstances sf cf l = .ok rs) :
    rs = l.map (encodeInstance sf cf) := by
  induction l generalizing rs with
  | nil =>
    unfold encodeInstances at h
    cases h
    rfl
  | cons i is ih =>
    simp only [encodeInstances] at h
    by_cases h0 : i.geometryContainerHandle = 0
    · rw [if_pos h0] at h
      cases h
    · rw [if_neg h0] at h
      rcases hrec : encodeInstances sf cf is with e | rest
      · rw [hrec] at h
        cases h
      · rw [hrec] at h
        cases h
        simp [ih hrec]

/-- `Initialize` on a level that is neither Top nor Bottom hits the
`UNREACHABLE()` in `VulkanAccelerationContainerLevel` as its very first step:
the run aborts with the driver state untouched. -/
theorem Init_other_crash {dev : Device} {desc : ContainerDescriptor} {s : DriverState}
    (hl : desc.level = .other) : Init dev desc s = (.crash, s) := by
  simp [Init, mBind, captureLevel, hl, VulkanAccelerationContainerLevel, assertUnreachable]

/-- Splitting a trace known to end in a given segment. -/
theorem trace_segment {b a seg : List DriverCall} (h : b = a ++ seg)
    (post : List DriverCall) : ∃ pre p2, b ++ post = pre ++ seg ++ p2 :=
  ⟨a, post, by simp [h]⟩

/-- What every successful `Initialize` run guarantees: the captured flag set
is the encoding of the caller's flags; the trace contains the scratch segment
(dedicated per-class allocations sized by `GetMemoryRequirementSize`, update
only when positive, one bind) and the pool's update region reflects the
truncated update size; and a Top-level run encodes the instances in descriptor
order and performs the instance-buffer segment. -/
theorem Init_ok_spec {dev : Device} {desc : ContainerDescriptor} {s : DriverState}
    {c : RayTracingAccelerationContainer} {s2 : DriverState}
    (h : Init dev desc s = (.ok c, s2)) :
    c.mFlags = VulkanBuildAccelerationStructureFlags desc.flags ∧
    (∃ pre post mem off, mem ≠ 0 ∧
      s2.trace = pre ++ scratchCalls dev mem off ++ post ∧
      (c.mScratchMemory.update.resource = none ↔
        GetMemoryRequirementSize dev .updateScratch = 0)) ∧
    (desc.level = .top →
      c.mInstances = desc.instances.map (encodeInstance dev.sinf dev.cosf) ∧
      ∃ pre2 post2,
        s2.trace = pre2 ++ instanceBufferCalls dev desc c.mInstances ++ post2) := by
  rcases hlevel : desc.level with _ | _ | _
  · -- Bottom
    simp only [Init, mBind_eq_ok, captureLevel_eq_ok, capabilityCheck_eq_ok, hlevel,
      geometryStage, instanceStage, instanceBufferStage, CreateAccelerationStructure,
      accelerationStructureCreateInfo, liftExcept_eq_ok, VulkanAccelerationContainerLevel,
      callCreateAccelerationStructure_eq_ok, callCreateBuffer_eq_ok,
      callGetBufferMemoryRequirements_eq_ok, callAllocateMemory_eq_ok,
      callBindBufferMemory_eq_ok, writeMappedMemory_eq_ok, callFetchHandle_eq_ok,
      mPure_eq_ok, reduceIte, bottom_eq_top_false, top_eq_bottom_false,
      Option.some.injEq, Except.ok.injEq] at h
    obtain ⟨lvl, t1, ⟨rfl, rfl⟩, u1, t2, ⟨hcap, rfl⟩, geoms, t3, ⟨hgeo, rfl⟩, u2, t4,
      ⟨info, t5, ⟨rfl, rfl⟩, hcr, rfl⟩, insts, t6, ⟨rfl, rfl⟩, instRes, t7, ⟨rfl, rfl⟩,
      pool, t8, hscratch, hnd, t9, ⟨hfetch, rfl⟩, rfl, rfl⟩ := h
    obtain ⟨mem, off, hmem, htr, hupd⟩ := ReserveScratchMemory_ok_spec hscratch
    obtain ⟨pre, p2, he⟩ := trace_segment htr [DriverCall.getAccelerationStructureHandle]
    refine ⟨rfl, ⟨pre, p2, mem, off, hmem, he, hupd⟩, ?_⟩
    intro htop
    cases htop
  · -- Top
    simp only [Init, mBind_eq_ok, captureLevel_eq_ok, capabilityCheck_eq_ok, hlevel,
      geometryStage, instanceStage, instanceBufferStage, CreateAccelerationStructure,
      accelerationStructureCreateInfo, liftExcept_eq_ok, VulkanAccelerationContainerLevel,
      callCreateAccelerationStructure_eq_ok, callCreateBuffer_eq_ok,
      callGetBufferMemoryRequirements_eq_ok, callAllocateMemory_eq_ok,
      callBindBufferMemory_eq_ok, writeMappedMemory_eq_ok, callFetchHandle_eq_ok,
      mPure_eq_ok, reduceIte, bottom_eq_top_false, top_eq_bottom_false,
      Option.some.injEq, Except.ok.injEq] at h
    obtain ⟨lvl, t1, ⟨rfl, rfl⟩, u1, t2, ⟨hcap, rfl⟩, geoms, t3, ⟨rfl, rfl⟩, u2, t4,
      ⟨info, t5, ⟨hinfo, rfl⟩, hcr, rfl⟩, insts, t6, ⟨hinst, rfl⟩, instRes, t7,
      ⟨u3, t8, ⟨hcb, rfl⟩, req, t9, ⟨rfl, rfl⟩, alloc, t10, ⟨halloc, rfl⟩, u4, t11,
        ⟨hbb, rfl⟩, u5, t12, rfl, rfl, rfl⟩,
      pool, t13, hscratch, hnd, t14, ⟨hfetch, rfl⟩, rfl, rfl⟩ := h
    obtain ⟨mem, off, hmem, htr, hupd⟩ := ReserveScratchMemory_ok_spec hscratch
    obtain ⟨pre, p2, he⟩ := trace_segment htr [DriverCall.getAccelerationStructureHandle]
    have hmap := encodeInstances_ok_map hinst
    refine ⟨rfl, ⟨pre, p2, mem, off, hmem, he, hupd⟩, ?_⟩
    intro _
    refine ⟨hmap, t5.trace ++ [.createAccelerationStructure info],
      scratchCalls dev mem off ++ [.getAccelerationStructureHandle], ?_⟩
    show t13.trace ++ [DriverCall.getAccelerationStructureHandle] = _
    rw [htr]
    simp [instanceBufferCalls, List.append_assoc]
  · -- neither
    rw [Init_other_crash hlevel] at h
    cases h

/-! ## The remaining claims -/

/-- C1: for every container descriptor the structure-creation step requests
the constant "prefer fast trace" build preference, independent of the caller's
requested flags, while the flag set captured on the container (returned by
`GetFlags`) still reflects exactly the caller's requested flags (they can be
read back bit by bit). -/
theorem c1_fast_trace_and_flags :
    (∀ desc geoms info, accelerationStructureCreateInfo desc geoms = .ok info →
      info.info.flags = VK_BUILD_ACCELERATION_STRUCTURE_PREFER_FAST_TRACE_BIT_NV) ∧
    (∀ dev desc s c s2, Init dev desc s = (.ok c, s2) →
      c.GetFlags = VulkanBuildAccelerationStructureFlags desc.flags ∧
      decodeBuildFlags c.GetFlags = desc.flags) := by
  have hdec : ∀ f : ContainerFlags,
      decodeBuildFlags (VulkanBuildAccelerationStructureFlags f) = f := by
    rintro ⟨a, b, c, d⟩
    cases a <;> cases b <;> cases c <;> cases d <;> decide
  constructor
  · intro desc geoms info h
    unfold accelerationStructureCreateInfo at h
    split at h <;> (try cases h) <;> rfl
  · intro dev desc s c s2 h
    have hflags := (Init_ok_spec h).1
    rw [RayTracingAccelerationContainer.GetFlags, hflags]
    exact ⟨rfl, hdec desc.flags⟩

/-- C1 witness: a concrete Bottom-level run: the create info carries the
fast-trace bit although the caller asked for AllowUpdate and LowMemory, and
the captured flag set decodes back to exactly those caller flags. -/
theorem c1_fast_trace_and_flags_witness :
    (okCreateInfo (accelerationStructureCreateInfo descBottom1 [])).info.flags =
      VK_BUILD_ACCELERATION_STRUCTURE_PREFER_FAST_TRACE_BIT_NV ∧
    (okContainer devOk descBottom1).GetFlags =
      VulkanBuildAccelerationStructureFlags descBottom1.flags ∧
    decodeBuildFlags (okContainer devOk descBottom1).GetFlags = descBottom1.flags :=
  ⟨c1_fast_trace_and_flags.1 descBottom1 [] _ rfl,
   (c1_fast_trace_and_flags.2 devOk descBottom1 initialState _ _ rfl).1,
   (c1_fast_trace_and_flags.2 devOk descBottom1 initialState _ _ rfl).2⟩

/-- C2 counterexample: on the concrete descriptor whose level is neither Top
nor Bottom, `Initialize` does not produce the `InvalidLevel` error result —
it hits the `UNREACHABLE()` assertion in the level conversion first. -/
theorem c2_counterexample :
    (Init devOk descOther initialState).1 = .crash ∧
    (Init devOk descOther initialState).1 ≠ .err .invalidLevel := by
  constructor
  · rfl
  · intro hcontra
    rw [show (Init devOk descOther initialState).1 = .crash from rfl] at hcontra
    cases hcontra

/-- C2 amended: a descriptor whose level is neither Top nor Bottom makes
`Initialize` abort at the level-capture assertion, with the driver state
untouched — so before any device memory allocation; the `InvalidLevel` error
is the structure-creation step's own level check, which such a run never
reaches. -/
theorem c2_invalid_level_amended (dev : Device) (desc : ContainerDescriptor)
    (s : DriverState) (geoms : List VkGeometryNV)
    (hb : desc.level ≠ .bottom) (ht : desc.level ≠ .top) :
    Init dev desc s = (.crash, s) ∧
    accelerationStructureCreateInfo desc geoms = .error .invalidLevel := by
  have hl : desc.level = .other := by
    rcases hc : desc.level with _ | _ | _
    · exact absurd hc hb
    · exact absurd hc ht
    · rfl
  exact ⟨Init_other_crash hl, by simp [accelerationStructureCreateInfo, hl]⟩

/-- C2 amended witness: the concrete invalid-level run. -/
theorem c2_invalid_level_amended_witness :
    Init devOk descOther initialState = (.crash, initialState) ∧
    accelerationStructureCreateInfo descOther [] = .error .invalidLevel :=
  c2_invalid_level_amended devOk descOther initialState [] (by decide) (by decide)

/-- C3 (amended): every successful `Initialize` performs the scratch segment:
one dedicated backing allocation per class, sized exactly to the
driver-reported requirement truncated to the 32 bits of
`GetMemoryRequirementSize`, with the update allocation skipped — and the
container's scratch descriptor left without an update region — exactly when
that truncated size is zero. -/
theorem c3_scratch_sizes (dev : Device) (desc : ContainerDescriptor) (s : DriverState)
    (c : RayTracingAccelerationContainer) (s2 : DriverState)
    (h : Init dev desc s = (.ok c, s2)) :
    ∃ pre post mem off, mem ≠ 0 ∧
      s2.trace = pre ++ scratchCalls dev mem off ++ post ∧
      (c.mScratchMemory.update.resource = none ↔
        GetMemoryRequirementSize dev .updateScratch = 0) :=
  (Init_ok_spec h).2.1

/-- C3 witness: the concrete successful Bottom-level run. -/
theorem c3_scratch_sizes_witness :
    ∃ pre post mem off, mem ≠ 0 ∧
      (finalState devOk descBottom1).trace = pre ++ scratchCalls devOk mem off ++ post ∧
      ((okContainer devOk descBottom1).mScratchMemory.update.resource = none ↔
        GetMemoryRequirementSize devOk .updateScratch = 0) :=
  c3_scratch_sizes devOk descBottom1 initialState _ _ rfl

/-- C3 counterexample: a driver reporting an update-scratch requirement of
`2 ^ 32` (nonzero) still yields a successful container with no update region,
because the reported `VkDeviceSize` is narrowed to a `uint32_t`. -/
theorem c3_counterexample :
    devBigUpdate.memReqSize .updateScratch ≠ 0 ∧
    (Init devBigUpdate descBottomEmpty initialState).1 =
      .ok (okContainer devBigUpdate descBottomEmpty) ∧
    (okContainer devBigUpdate descBottomEmpty).mScratchMemory.update.resource = none := by
  refine ⟨?_, rfl, rfl⟩
  show (2 : Nat) ^ 32 ≠ 0
  positivity

/-- C7: every successful Top-level `Initialize` creates the instance buffer
with size `instanceCount * sizeof(VkAccelerationInstance)` as a transfer
source, allocates host-visible backing memory for it, binds it, and copies the
encoded records into the mapped region in descriptor order. -/
theorem c7_instance_buffer (dev : Device) (desc : ContainerDescriptor) (s : DriverState)
    (c : RayTracingAccelerationContainer) (s2 : DriverState)
    (hl : desc.level = .top) (h : Init dev desc s = (.ok c, s2)) :
    c.mInstances = desc.instances.map (encodeInstance dev.sinf dev.cosf) ∧
    ∃ pre post, s2.trace =
      pre ++ instanceBufferCalls dev desc
        (desc.instances.map (encodeInstance dev.sinf dev.cosf)) ++ post := by
  obtain ⟨hmap, pre, post, htr⟩ := (Init_ok_spec h).2.2 hl
  rw [hmap] at htr
  exact ⟨hmap, pre, post, htr⟩

/-- C7 witness: the concrete successful one-instance Top-level run. -/
theorem c7_instance_buffer_witness :
    (okContainer devOk descTop1).mInstances =
      descTop1.instances.map (encodeInstance devOk.sinf devOk.cosf) ∧
    ∃ pre post, (finalState devOk descTop1).trace =
      pre ++ instanceBufferCalls devOk descTop1
        (descTop1.instances.map (encodeInstance devOk.sinf devOk.cosf)) ++ post :=
  c7_instance_buffer devOk descTop1 initialState _ _ rfl rfl

end DawnRT
